import Mathlib

/-!
A shallow embedding of the thalamus model in
`htmresearch/frameworks/thalamus/thalamus.py` (class `Thalamus`), together
with proofs about its learning and inference operations.

Modelling conventions:

* The repository targets Python 2 (it depends on `nupic`), so `/` on
  integers is floor division and is modelled with `Nat` division.
* Synapse permanences are the Python floats `1.0` (at creation) and the
  connected-permanence threshold `0.5`; both are exactly representable, and
  the only arithmetic performed on them is comparison, so they are modelled
  as exact rationals.  Grid values (`tonicLevel`, the burst-ready mask, the
  feed-forward input) are likewise modelled as rationals.
* 2-D numpy arrays (the burst-ready mask, the feed-forward input and output
  grids) are modelled as lists of rows (`List (List ℚ)`), flattened
  row-major exactly as `numpy.reshape(-1)` does.
* The segment/synapse store `nupic.bindings.math.SparseMatrixConnections`
  is external to this repository (it is a consumed capability); it is
  modelled from the spec, §4.2.  Segment ids are positions in a single
  append-only list, handed out in creation order, which is the behaviour
  the repository's own tests pin down (`newFFSegments == newTRNSegments`
  for parallel creation, `nSegments`, `getSegmentCounts`).
-/

/-- A synapse: a directed connection from a dendritic segment to one
presynaptic cell index, with a permanence weight. -/
structure Synapse where
  presyn : Nat
  perm : ℚ
deriving DecidableEq

/-- One dendritic segment: it belongs to exactly one cell of the
postsynaptic population and owns a list of synapses. -/
structure Segment where
  cell : Nat
  synapses : List Synapse
deriving DecidableEq

/-- Modelled from the spec: the Segment Store capability (spec §4.2) that
`nupic.bindings.math.SparseMatrixConnections` provides to `thalamus.py`;
that class is external to this repository.  `segments` is an append-only
arena; a segment id is a position in it. -/
structure SparseMatrixConnections where
  numCells : Nat
  numInputs : Nat
  segments : List Segment
deriving DecidableEq

namespace SparseMatrixConnections

/-- Modelled from the spec: `createSegments` creates exactly one new, empty
segment per input cell index (duplicates create multiple independent
segments on the same cell) and returns the new segment ids in input
order. -/
def createSegments (s : SparseMatrixConnections) (cellIndices : List Nat) :
    SparseMatrixConnections × List Nat :=
  ({ s with segments := s.segments ++ cellIndices.map (fun c => Segment.mk c []) },
   (List.range cellIndices.length).map (fun i => s.segments.length + i))

/-- Modelled from the spec: `growSynapses` adds, on every listed segment,
one synapse to every listed presynaptic index, with the given permanence. -/
def growSynapses (s : SparseMatrixConnections) (segmentIds : List Nat)
    (presynapticIndices : List Nat) (weight : ℚ) : SparseMatrixConnections :=
  let grown := List.zipWith
    (fun i seg => if i ∈ segmentIds then
        { seg with synapses :=
            seg.synapses ++ presynapticIndices.map (fun p => Synapse.mk p weight) }
      else seg)
    (List.range s.segments.length) s.segments
  { s with segments := grown }

/-- Overlap score of one segment against a sparse active-input set: the
number of its synapses whose presynaptic index is active and whose
permanence is at least the connected permanence (spec §4.2; the active
input indices act as a set, spec §4.3 step 2). -/
def overlapScore (synapses : List Synapse) (activeInputs : List Nat)
    (connectedPermanence : ℚ) : Nat :=
  (synapses.filter (fun syn =>
    decide (syn.presyn ∈ activeInputs ∧ connectedPermanence ≤ syn.perm))).length

/-- Modelled from the spec: `computeActivity` returns one overlap score per
existing segment, in segment-creation order. -/
def computeActivity (s : SparseMatrixConnections) (activeInputs : List Nat)
    (connectedPermanence : ℚ) : List Nat :=
  s.segments.map (fun seg => overlapScore seg.synapses activeInputs connectedPermanence)

/-- Modelled from the spec: `mapSegmentsToCells` returns the owning cell of
each listed segment id. -/
def mapSegmentsToCells (s : SparseMatrixConnections) (segmentIds : List Nat) : List Nat :=
  segmentIds.map (fun i => (s.segments.getD i (Segment.mk 0 [])).cell)

/-- Modelled from the spec: total number of segments in the store. -/
def nSegments (s : SparseMatrixConnections) : Nat := s.segments.length

/-- Modelled from the spec: number of segments owned by each listed cell. -/
def getSegmentCounts (s : SparseMatrixConnections) (cellIndices : List Nat) : List Nat :=
  cellIndices.map (fun c => (s.segments.filter (fun seg => seg.cell == c)).length)

end SparseMatrixConnections

/-- `np.flatnonzero (overlaps >= threshold)`: the sorted list of positions
of `overlaps` whose value is at least `threshold`. -/
def flatnonzeroGe (overlaps : List Nat) (threshold : Nat) : List Nat :=
  (List.range overlaps.length).filter (fun i => decide (threshold ≤ overlaps.getD i 0))

/-- Numpy fancy assignment `mask.reshape(-1)[indices] = 1` on a 2-D grid
stored as rows of length `H`: the flat (row-major) position `i * H + j`
of entry `(i, j)`. -/
def setFlatOnes (H : Nat) (mask : List (List ℚ)) (indices : List Nat) : List (List ℚ) :=
  List.zipWith
    (fun i row => List.zipWith
      (fun j v => if i * H + j ∈ indices then 1 else v) (List.range row.length) row)
    (List.range mask.length) mask

/-- The positions of the nonzero entries of a 2-D grid, in C (row-major)
order, exactly as the pair of arrays returned by `numpy.nonzero` lists
them. -/
def nonzeroPositions (g : List (List ℚ)) : List (Nat × Nat) :=
  (List.range g.length).flatMap (fun i =>
    (List.range (g.getD i []).length).filterMap (fun j =>
      if (g.getD i []).getD j 0 = 0 then none else some (i, j)))

/-- Entry `(i, j)` of a 2-D grid (0 outside the grid). -/
def entry2 (g : List (List ℚ)) (i j : Nat) : ℚ := (g.getD i []).getD j 0

/-- Entry at flat (row-major) position `k` of a 2-D grid with rows of
length `H`, as `grid.reshape(-1)[k]` reads it. -/
def flatEntry (H : Nat) (g : List (List ℚ)) (k : Nat) : ℚ := entry2 g (k / H) (k % H)

/-- The `Thalamus` class of `thalamus.py`: construction parameters, the
three segment stores, and the per-cycle transient state.  `rngState`
stands for the `Random(seed)` instance created in `__init__`; none of the
operations below consult it. -/
structure Thalamus where
  trnWidth : Nat
  trnHeight : Nat
  relayWidth : Nat
  relayHeight : Nat
  inputWidth : Nat
  inputHeight : Nat
  l6CellCount : Nat
  seed : Nat
  rngState : Nat
  trnActivationThreshold : Nat
  trnConnections : SparseMatrixConnections
  relayTRNSegmentThreshold : Nat
  relayTRNSegments : SparseMatrixConnections
  relayFFSegmentThreshold : Nat
  relayFFSegments : SparseMatrixConnections
  trnOverlaps : List Nat
  activeTRNSegments : List Nat
  activeTRNCellIndices : List Nat
  relayTRNSegmentOverlaps : List Nat
  activeRelaySegments : List Nat
  burstReadyCellIndices : List Nat
  burstReadyCells : List (List ℚ)
  ffOverlaps : List Nat
  activeFFSegments : List Nat
deriving DecidableEq

namespace Thalamus

/-- `Thalamus.reset`: set every per-cycle transient field back to zero
(`self.burstReadyCells = np.zeros((self.relayWidth, self.relayHeight))`).
The `ffOverlaps`/`activeFFSegments` fields set by
`computeFeedForwardActivity` are not touched by `reset` in the source. -/
def reset (t : Thalamus) : Thalamus :=
  { t with
    trnOverlaps := []
    activeTRNSegments := []
    activeTRNCellIndices := []
    relayTRNSegmentOverlaps := []
    activeRelaySegments := []
    burstReadyCellIndices := []
    burstReadyCells := List.replicate t.relayWidth (List.replicate t.relayHeight 0) }

/-- `Thalamus.__init__`: record the three population shapes and the two
thresholds, build empty segment stores of the corresponding dimensions
(`L6→TRN`, `TRN→Relay`, `FeedForward→Relay`), and `reset()`. -/
def init (trnCellShape relayCellShape inputShape : Nat × Nat)
    (l6CellCount trnThreshold relayThreshold sd : Nat) : Thalamus :=
  reset
    { trnWidth := trnCellShape.1
      trnHeight := trnCellShape.2
      relayWidth := relayCellShape.1
      relayHeight := relayCellShape.2
      inputWidth := inputShape.1
      inputHeight := inputShape.2
      l6CellCount := l6CellCount
      seed := sd
      rngState := sd
      trnActivationThreshold := trnThreshold
      trnConnections :=
        SparseMatrixConnections.mk (trnCellShape.1 * trnCellShape.2) l6CellCount []
      relayTRNSegmentThreshold := relayThreshold
      relayTRNSegments :=
        SparseMatrixConnections.mk (relayCellShape.1 * relayCellShape.2)
          (trnCellShape.1 * trnCellShape.2) []
      relayFFSegmentThreshold := 1
      relayFFSegments :=
        SparseMatrixConnections.mk (relayCellShape.1 * relayCellShape.2)
          (inputShape.1 * inputShape.2) []
      trnOverlaps := []
      activeTRNSegments := []
      activeTRNCellIndices := []
      relayTRNSegmentOverlaps := []
      activeRelaySegments := []
      burstReadyCellIndices := []
      burstReadyCells := []
      ffOverlaps := []
      activeFFSegments := [] }

/-- `trnCellIndex`: map a 2-D TRN coordinate to its 1-D cell index,
`coord[1] * self.trnWidth + coord[0]`. -/
def trnCellIndex (t : Thalamus) (coord : Nat × Nat) : Nat :=
  coord.2 * t.trnWidth + coord.1

/-- `trnIndextoCoord`: map a 1-D TRN cell index to a 2-D coordinate,
`(i % self.trnWidth, i / self.trnWidth)` (Python 2 integer division). -/
def trnIndextoCoord (t : Thalamus) (i : Nat) : Nat × Nat :=
  (i % t.trnWidth, i / t.trnWidth)

/-- `relayCellIndex`: map a 2-D relay coordinate to its 1-D cell index. -/
def relayCellIndex (t : Thalamus) (coord : Nat × Nat) : Nat :=
  coord.2 * t.relayWidth + coord.1

/-- `relayIndextoCoord`: map a 1-D relay cell index to a 2-D coordinate. -/
def relayIndextoCoord (t : Thalamus) (i : Nat) : Nat × Nat :=
  (i % t.relayWidth, i / t.relayWidth)

/-- `ffCellIndex`: map a 2-D feed-forward-input coordinate to its 1-D cell
index. -/
def ffCellIndex (t : Thalamus) (coord : Nat × Nat) : Nat :=
  coord.2 * t.inputWidth + coord.1

/-- `ffIndextoCoord`: map a 1-D feed-forward-input cell index to a 2-D
coordinate. -/
def ffIndextoCoord (t : Thalamus) (i : Nat) : Nat × Nat :=
  (i % t.inputWidth, i / t.inputWidth)

/-- `learnL6Pattern`: for each TRN coordinate in `cellsToLearnOn`, create
one new segment in the `L6→TRN` store and grow synapses from every bit of
`l6Pattern` into it with permanence 1.0; return the TRN cell indices
learned on.  The source performs no bounds check on the coordinates. -/
def learnL6Pattern (t : Thalamus) (l6Pattern : List Nat)
    (cellsToLearnOn : List (Nat × Nat)) : Thalamus × List Nat :=
  let cellIndices := cellsToLearnOn.map t.trnCellIndex
  let created := t.trnConnections.createSegments cellIndices
  ({ t with trnConnections := created.1.growSynapses created.2 l6Pattern 1 }, cellIndices)

/-- `learnTRNPatternOnRelayCells`: for each relay coordinate in
`cellsToLearnOn`, create one paired segment in `TRN→Relay` (synapses =
`trnSDRIndices`, permanence 1.0) and one in `FeedForward→Relay` (a single
synapse to the linear index of `ffCoord`, permanence 1.0); return the
relay cell indices learned on.  The source asserts
`np.array_equal(newFFSegments, newTRNSegments)`; the assertion failure is
modelled as `none`. -/
def learnTRNPatternOnRelayCells (t : Thalamus) (trnSDRIndices : List Nat)
    (ffCoord : Nat × Nat) (cellsToLearnOn : List (Nat × Nat)) :
    Option (Thalamus × List Nat) :=
  let cellIndices := cellsToLearnOn.map t.relayCellIndex
  let createdTRN := t.relayTRNSegments.createSegments cellIndices
  let createdFF := t.relayFFSegments.createSegments cellIndices
  if createdFF.2 = createdTRN.2 then
    let ffIndex := [t.ffCellIndex ffCoord]
    some ({ t with
        relayTRNSegments := createdTRN.1.growSynapses createdTRN.2 trnSDRIndices 1
        relayFFSegments := createdFF.1.growSynapses createdFF.2 ffIndex 1 },
      cellIndices)
  else none

/-- `deInactivateCells`: score the `L6→TRN` store against `l6Input`
(connected permanence 0.5), keep the segments at or above
`trnActivationThreshold`, map them to the active TRN cells; score the
`TRN→Relay` store against those cells, keep the segments at or above
`relayTRNSegmentThreshold`, map them to the burst-ready relay cells; and
set the burst-ready mask to 1 at those flat positions
(`self.burstReadyCells.reshape(-1)[self.burstReadyCellIndices] = 1` — the
mask is not cleared first). -/
def deInactivateCells (t : Thalamus) (l6Input : List Nat) : Thalamus :=
  let trnOverlaps := t.trnConnections.computeActivity l6Input ((1 : ℚ)/2)
  let activeTRNSegments := flatnonzeroGe trnOverlaps t.trnActivationThreshold
  let activeTRNCellIndices := t.trnConnections.mapSegmentsToCells activeTRNSegments
  let relayTRNSegmentOverlaps :=
    t.relayTRNSegments.computeActivity activeTRNCellIndices ((1 : ℚ)/2)
  let activeRelaySegments := flatnonzeroGe relayTRNSegmentOverlaps t.relayTRNSegmentThreshold
  let burstReadyCellIndices := t.relayTRNSegments.mapSegmentsToCells activeRelaySegments
  { t with
    trnOverlaps := trnOverlaps
    activeTRNSegments := activeTRNSegments
    activeTRNCellIndices := activeTRNCellIndices
    relayTRNSegmentOverlaps := relayTRNSegmentOverlaps
    activeRelaySegments := activeRelaySegments
    burstReadyCellIndices := burstReadyCellIndices
    burstReadyCells := setFlatOnes t.relayHeight t.burstReadyCells burstReadyCellIndices }

/-- `computeFeedForwardActivity`: the source computes
`ffLocations = ff.nonzero()` (a pair of coordinate arrays) and then
`ffindices = [self.ffCellIndex(c) for c in ffLocations]`, which iterates
over the two arrays of the pair and indexes each at `[1]` and `[0]` — an
`IndexError` (modelled as `none`) unless the grid has at least two nonzero
entries, and otherwise two meaningless indices built from the first two
row positions and the first two column positions.  Those scores are
stored but the returned grid is
`ff2 = ff * tonicLevel + self.burstReadyCells * ff`. -/
def computeFeedForwardActivity (t : Thalamus) (feedForwardInput : List (List ℚ))
    (tonicLevel : ℚ) : Option (Thalamus × List (List ℚ)) :=
  let ffLocations := nonzeroPositions feedForwardInput
  if ffLocations.length < 2 then none
  else
    let rows := ffLocations.map Prod.fst
    let cols := ffLocations.map Prod.snd
    let ffindices := [rows.getD 1 0 * t.inputWidth + rows.getD 0 0,
                      cols.getD 1 0 * t.inputWidth + cols.getD 0 0]
    let ffOverlaps := t.relayFFSegments.computeActivity ffindices ((1 : ℚ)/2)
    let activeFFSegments := flatnonzeroGe ffOverlaps 1
    let ff2 := List.zipWith
      (fun row brow => List.zipWith (fun a b => a * tonicLevel + b * a) row brow)
      feedForwardInput t.burstReadyCells
    some ({ t with ffOverlaps := ffOverlaps, activeFFSegments := activeFFSegments }, ff2)

/-- Modelled from the spec: `setThresholds(trnThreshold, relayThreshold)`
mutates the two scalar thresholds used by `deInactivateCells`.  No such
method exists in `thalamus.py`, although the repository's own test
(`thalamus_test.py`, `testTrainThalamus`) calls it. -/
def setThresholds (t : Thalamus) (trnThreshold relayThreshold : Nat) : Thalamus :=
  { t with
    trnActivationThreshold := trnThreshold
    relayTRNSegmentThreshold := relayThreshold }

end Thalamus

/-- The `Thalamus()` instance of the tests: all construction parameters at
their `__init__` defaults. -/
def defaultThalamus : Thalamus :=
  Thalamus.init (32, 32) (32, 32) (32, 32) 1024 10 10 42

/-- One call of the model's public API, with its arguments. -/
inductive ThalamusCall where
  | learnL6 (l6Pattern : List Nat) (cellsToLearnOn : List (Nat × Nat))
  | learnTRN (trnSDRIndices : List Nat) (ffCoord : Nat × Nat)
      (cellsToLearnOn : List (Nat × Nat))
  | deInactivate (l6Input : List Nat)
  | computeFF (feedForwardInput : List (List ℚ)) (tonicLevel : ℚ)
  | doReset
deriving DecidableEq

/-- The observable result of one call: the cell indices returned by a learn
call, the transient sets and burst-ready mask produced by
`deInactivateCells`, or the grid returned by
`computeFeedForwardActivity`. -/
inductive ThalamusOutput where
  | learned (cellIndices : List Nat)
  | deInactivated (activeTRNSegments activeTRNCellIndices activeRelaySegments
      burstReadyCellIndices : List Nat) (burstReadyCells : List (List ℚ))
  | ffActivity (grid : List (List ℚ))
  | resetDone
deriving DecidableEq

/-- Apply one call to a model state, returning the new state and the call's
observable output (`none` models an uncaught Python exception). -/
def applyCall (t : Thalamus) : ThalamusCall → Option (Thalamus × ThalamusOutput)
  | .learnL6 pat cells =>
      let r := t.learnL6Pattern pat cells
      some (r.1, .learned r.2)
  | .learnTRN sdr coord cells =>
      (t.learnTRNPatternOnRelayCells sdr coord cells).map (fun r => (r.1, .learned r.2))
  | .deInactivate l6 =>
      let u := t.deInactivateCells l6
      some (u, .deInactivated u.activeTRNSegments u.activeTRNCellIndices
        u.activeRelaySegments u.burstReadyCellIndices u.burstReadyCells)
  | .computeFF ff tonic =>
      (t.computeFeedForwardActivity ff tonic).map (fun r => (r.1, .ffActivity r.2))
  | .doReset => some (t.reset, .resetDone)

/-- Run a sequence of calls from a state, collecting every observable
output in order. -/
def runCalls (t : Thalamus) : List ThalamusCall → Option (Thalamus × List ThalamusOutput)
  | [] => some (t, [])
  | c :: cs => (applyCall t c).bind (fun r =>
      (runCalls r.1 cs).map (fun q => (q.1, r.2 :: q.2)))

/-- A 2×1 thalamus with both thresholds 1, for concrete counterexamples. -/
def tinyThalamus : Thalamus := Thalamus.init (2, 1) (2, 1) (2, 1) 2 1 1 0

/-- `tinyThalamus` after learning the L6 pattern `[0]` on TRN cell (0, 0). -/
def tinyTrainedL6 : Thalamus := (tinyThalamus.learnL6Pattern [0] [(0, 0)]).1

/-- `tinyTrainedL6` after learning the TRN pattern `[0]` and feed-forward
coordinate (0, 0) on relay cell (0, 0). -/
def tinyTrained : Thalamus :=
  ((tinyTrainedL6.learnTRNPatternOnRelayCells [0] (0, 0) [(0, 0)]).getD
    (tinyTrainedL6, [])).1

/-- `tinyTrained` after `deInactivateCells [0]`: relay cell 0 becomes
burst-ready and the mask is set at flat position 0. -/
def tinyAfterFirst : Thalamus := tinyTrained.deInactivateCells [0]

/-- `tinyAfterFirst` after a second `deInactivateCells []` with no
intervening `reset()`: nothing qualifies, but the mask keeps its old 1. -/
def tinyAfterSecond : Thalamus := tinyAfterFirst.deInactivateCells []

/-- A 2×2 thalamus used for concrete feed-forward evaluations. -/
def smallThalamus : Thalamus := Thalamus.init (2, 2) (2, 2) (2, 2) 4 1 1 0

/-- A 2×2 feed-forward input grid with two active axons. -/
def smallFF : List (List ℚ) := [[1, 1], [0, 0]]

/-- `smallThalamus` with a different (nonempty) `FeedForward→Relay` store
but the same burst-ready mask. -/
def smallVariantThalamus : Thalamus :=
  { smallThalamus with
    relayFFSegments := SparseMatrixConnections.mk 4 4 [Segment.mk 0 [Synapse.mk 0 1]] }

/-- Creating one empty segment per cell and then growing the same synapse
list on every new segment appends, to the store, one segment per listed
cell holding exactly the grown synapses, and touches no earlier segment. -/
theorem growSynapses_createSegments (s : SparseMatrixConnections)
    (cells presyn : List Nat) (w : ℚ) :
    ((s.createSegments cells).1.growSynapses (s.createSegments cells).2 presyn w).segments
      = s.segments
        ++ cells.map (fun c => Segment.mk c (presyn.map (fun p => Synapse.mk p w))) := by
  simp only [SparseMatrixConnections.createSegments, SparseMatrixConnections.growSynapses]
  apply List.ext_getElem
  · simp
  · intro i h1 h2
    rw [List.getElem_zipWith]
    rw [List.getElem_range]
    have hlen : i < s.segments.length + cells.length := by
      simpa using h2
    have hmem : i ∈ (List.range cells.length).map (fun j => s.segments.length + j)
        ↔ s.segments.length ≤ i ∧ i < s.segments.length + cells.length := by
      simp only [List.mem_map, List.mem_range]
      constructor
      · rintro ⟨j, hj, rfl⟩; omega
      · rintro ⟨hle, hlt⟩; exact ⟨i - s.segments.length, by omega, by omega⟩
    by_cases hi : i < s.segments.length
    · rw [if_neg (by rw [hmem]; omega)]
      rw [List.getElem_append_left hi, List.getElem_append_left hi]
    · rw [if_pos (by rw [hmem]; omega)]
      rw [List.getElem_append_right (by omega), List.getElem_append_right (by omega)]
      simp only [List.getElem_map]
      rfl

/-- C8: the coordinate indexers and their inverses are mutually inverse on
in-bounds inputs, for all three populations: `trnCellIndex (x, y) =
y * trnWidth + x` and `trnIndextoCoord (y * trnWidth + x) = (x, y)`, and
likewise for `relayCellIndex`/`relayIndextoCoord` and
`ffCellIndex`/`ffIndextoCoord` over their populations' shapes. -/
theorem thalamus_C8 (t : Thalamus) (x₁ y₁ x₂ y₂ x₃ y₃ : Nat)
    (h₁ : x₁ < t.trnWidth) (h₁h : y₁ < t.trnHeight)
    (h₂ : x₂ < t.relayWidth) (h₂h : y₂ < t.relayHeight)
    (h₃ : x₃ < t.inputWidth) (h₃h : y₃ < t.inputHeight) :
    t.trnCellIndex (x₁, y₁) = y₁ * t.trnWidth + x₁
    ∧ t.trnIndextoCoord (y₁ * t.trnWidth + x₁) = (x₁, y₁)
    ∧ t.relayCellIndex (x₂, y₂) = y₂ * t.relayWidth + x₂
    ∧ t.relayIndextoCoord (y₂ * t.relayWidth + x₂) = (x₂, y₂)
    ∧ t.ffCellIndex (x₃, y₃) = y₃ * t.inputWidth + x₃
    ∧ t.ffIndextoCoord (y₃ * t.inputWidth + x₃) = (x₃, y₃) := by
  have inv : ∀ W x y : Nat, x < W →
      ((y * W + x) % W, (y * W + x) / W) = (x, y) := by
    intro W x y hx
    have e : y * W + x = x + W * y := by ring
    rw [e, Nat.add_mul_div_left _ _ (by omega), Nat.add_mul_mod_self_left,
      Nat.mod_eq_of_lt hx, Nat.div_eq_of_lt hx, Nat.zero_add]
  refine ⟨rfl, inv _ _ _ h₁, rfl, inv _ _ _ h₂, rfl, inv _ _ _ h₃⟩

/-- C8 witness: the round trips at the concrete coordinate (2, 3) on the
default 32×32 populations. -/
theorem thalamus_C8_witness :
    ((2 < defaultThalamus.trnWidth ∧ 3 < defaultThalamus.trnHeight)
      ∧ (2 < defaultThalamus.relayWidth ∧ 3 < defaultThalamus.relayHeight)
      ∧ (2 < defaultThalamus.inputWidth ∧ 3 < defaultThalamus.inputHeight))
    ∧ (defaultThalamus.trnCellIndex (2, 3) = 3 * defaultThalamus.trnWidth + 2
      ∧ defaultThalamus.trnIndextoCoord (3 * defaultThalamus.trnWidth + 2) = (2, 3)
      ∧ defaultThalamus.relayCellIndex (2, 3) = 3 * defaultThalamus.relayWidth + 2
      ∧ defaultThalamus.relayIndextoCoord (3 * defaultThalamus.relayWidth + 2) = (2, 3)
      ∧ defaultThalamus.ffCellIndex (2, 3) = 3 * defaultThalamus.inputWidth + 2
      ∧ defaultThalamus.ffIndextoCoord (3 * defaultThalamus.inputWidth + 2) = (2, 3)) :=
  ⟨⟨⟨by decide, by decide⟩, ⟨by decide, by decide⟩, ⟨by decide, by decide⟩⟩,
    thalamus_C8 defaultThalamus 2 3 2 3 2 3 (by decide) (by decide) (by decide)
      (by decide) (by decide) (by decide)⟩

/-- C2: `learnL6Pattern` creates exactly one new `L6→TRN` segment per
listed TRN cell (a cell listed twice gets two independent segments, each
holding the whole pattern with permanence 1.0) and returns the linear cell
indices in input order; concretely, on the default 32×32 grid,
`learnL6Pattern [0,1,2,3,4,5] [(0,0),(2,3)]` returns `[0, 98]`, the
`L6→TRN` store then holds exactly 2 segments, and
`getSegmentCounts [0, 98] = [1, 1]`. -/
theorem thalamus_C2 :
    (∀ (t : Thalamus) (l6Pattern : List Nat) (cells : List (Nat × Nat)),
      (t.learnL6Pattern l6Pattern cells).2 = cells.map t.trnCellIndex
      ∧ (t.learnL6Pattern l6Pattern cells).1.trnConnections.segments
          = t.trnConnections.segments
            ++ cells.map (fun c => Segment.mk (t.trnCellIndex c)
                (l6Pattern.map (fun p => Synapse.mk p 1))))
    ∧ (defaultThalamus.learnL6Pattern [0, 1, 2, 3, 4, 5] [(0, 0), (2, 3)]).2 = [0, 98]
    ∧ (defaultThalamus.learnL6Pattern [0, 1, 2, 3, 4, 5]
        [(0, 0), (2, 3)]).1.trnConnections.nSegments = 2
    ∧ (defaultThalamus.learnL6Pattern [0, 1, 2, 3, 4, 5]
        [(0, 0), (2, 3)]).1.trnConnections.getSegmentCounts [0, 98] = [1, 1] := by
  refine ⟨fun t l6Pattern cells => ⟨rfl, ?_⟩, by with_unfolding_all decide,
    by with_unfolding_all decide, by with_unfolding_all decide⟩
  show ((t.trnConnections.createSegments (cells.map t.trnCellIndex)).1.growSynapses
      (t.trnConnections.createSegments (cells.map t.trnCellIndex)).2 l6Pattern 1).segments = _
  rw [growSynapses_createSegments, List.map_map]
  rfl

/-- C1: in `learnTRNPatternOnRelayCells`, the segment-id sequences created
in the `TRN→Relay` and `FeedForward→Relay` stores are identical element
for element (so the source's `np.array_equal` assertion passes and the
call completes), and every newly created `FeedForward→Relay` segment holds
exactly one synapse whose presynaptic index is the linear index
`ffCoord[1] * inputWidth + ffCoord[0]` with permanence 1.0.  The
hypothesis mirrors the pairing invariant the two stores satisfy whenever
they have only ever been grown by this call (which creates the same
number of segments in each). -/
theorem thalamus_C1 (t : Thalamus) (trnSDRIndices : List Nat) (ffCoord : Nat × Nat)
    (cellsToLearnOn : List (Nat × Nat))
    (h : t.relayTRNSegments.segments.length = t.relayFFSegments.segments.length) :
    (t.relayTRNSegments.createSegments (cellsToLearnOn.map t.relayCellIndex)).2
      = (t.relayFFSegments.createSegments (cellsToLearnOn.map t.relayCellIndex)).2
    ∧ ∃ t', t.learnTRNPatternOnRelayCells trnSDRIndices ffCoord cellsToLearnOn
        = some (t', cellsToLearnOn.map t.relayCellIndex)
      ∧ t'.relayFFSegments.segments
          = t.relayFFSegments.segments
            ++ cellsToLearnOn.map (fun c => Segment.mk (t.relayCellIndex c)
                [Synapse.mk (ffCoord.2 * t.inputWidth + ffCoord.1) 1]) := by
  have hids : (t.relayTRNSegments.createSegments (cellsToLearnOn.map t.relayCellIndex)).2
      = (t.relayFFSegments.createSegments (cellsToLearnOn.map t.relayCellIndex)).2 := by
    simp [SparseMatrixConnections.createSegments, h]
  refine ⟨hids, ?_⟩
  simp only [Thalamus.learnTRNPatternOnRelayCells]
  rw [if_pos hids.symm]
  refine ⟨_, rfl, ?_⟩
  show ((t.relayFFSegments.createSegments (cellsToLearnOn.map t.relayCellIndex)).1.growSynapses
      (t.relayFFSegments.createSegments (cellsToLearnOn.map t.relayCellIndex)).2
      [t.ffCellIndex ffCoord] 1).segments = _
  rw [growSynapses_createSegments, List.map_map]
  rfl

/-- C1 witness: the theorem applied to the default thalamus at the first
call of `testLearnTRNPatternOnRelayCells` (TRN SDR `[0..5]`, feed-forward
coordinate (2, 3), relay cells (0, 0) and (2, 3)). -/
theorem thalamus_C1_witness :
    defaultThalamus.relayTRNSegments.segments.length
        = defaultThalamus.relayFFSegments.segments.length
    ∧ ((defaultThalamus.relayTRNSegments.createSegments
          ([(0, 0), (2, 3)].map defaultThalamus.relayCellIndex)).2
        = (defaultThalamus.relayFFSegments.createSegments
          ([(0, 0), (2, 3)].map defaultThalamus.relayCellIndex)).2
      ∧ ∃ t', defaultThalamus.learnTRNPatternOnRelayCells [0, 1, 2, 3, 4, 5] (2, 3)
            [(0, 0), (2, 3)]
          = some (t', [(0, 0), (2, 3)].map defaultThalamus.relayCellIndex)
        ∧ t'.relayFFSegments.segments
            = defaultThalamus.relayFFSegments.segments
              ++ [(0, 0), (2, 3)].map (fun c => Segment.mk (defaultThalamus.relayCellIndex c)
                  [Synapse.mk (3 * defaultThalamus.inputWidth + 2) 1])) :=
  ⟨by decide, thalamus_C1 defaultThalamus [0, 1, 2, 3, 4, 5] (2, 3) [(0, 0), (2, 3)]
    (by decide)⟩

set_option maxRecDepth 8000 in
/-- C7 counterexample: the claim says a coordinate outside the TRN bounds
makes `learnL6Pattern` fail with an `InvalidCoordinate` error rather than
completing; but `thalamus.py` performs no bounds check and defines no such
error anywhere, so at the out-of-bounds coordinate (32, 0) of the default
32-wide grid the call completes normally, returns the cell index 32, and
produces exactly the state that learning on the in-bounds coordinate
(0, 1) produces (the out-of-bounds coordinate is silently aliased). -/
theorem thalamus_C7_counterexample :
    (defaultThalamus.learnL6Pattern [0] [(32, 0)]).2 = [32]
    ∧ (defaultThalamus.learnL6Pattern [0] [(32, 0)]).1.trnConnections
        = (defaultThalamus.learnL6Pattern [0] [(0, 1)]).1.trnConnections
    ∧ (defaultThalamus.learnL6Pattern [0] [(32, 0)]).1.trnConnections.nSegments = 1 := by
  refine ⟨by decide, ?_, by decide⟩
  with_unfolding_all decide

/-- C7 (amended): the learning operations perform no bounds validation and
never fail: a coordinate with out-of-range x is mapped through
`y * width + x` and learning completes, silently aliasing the coordinate
onto another cell — learning on `(width + x, y)` is exactly learning on
`(x, y + 1)`, for both `learnL6Pattern` and
`learnTRNPatternOnRelayCells`. -/
theorem thalamus_C7_amended (t : Thalamus) (l6Pattern trnSDRIndices : List Nat)
    (ffCoord : Nat × Nat) (x y x' y' : Nat)
    (hx : x < t.trnWidth) (hx' : x' < t.relayWidth) :
    t.learnL6Pattern l6Pattern [(t.trnWidth + x, y)]
      = t.learnL6Pattern l6Pattern [(x, y + 1)]
    ∧ (t.learnL6Pattern l6Pattern [(t.trnWidth + x, y)]).2 = [(y + 1) * t.trnWidth + x]
    ∧ t.learnTRNPatternOnRelayCells trnSDRIndices ffCoord [(t.relayWidth + x', y')]
      = t.learnTRNPatternOnRelayCells trnSDRIndices ffCoord [(x', y' + 1)] := by
  have e1 : t.trnCellIndex (t.trnWidth + x, y) = t.trnCellIndex (x, y + 1) := by
    show y * t.trnWidth + (t.trnWidth + x) = (y + 1) * t.trnWidth + x
    ring
  have e2 : t.relayCellIndex (t.relayWidth + x', y') = t.relayCellIndex (x', y' + 1) := by
    show y' * t.relayWidth + (t.relayWidth + x') = (y' + 1) * t.relayWidth + x'
    ring
  refine ⟨?_, ?_, ?_⟩
  · simp only [Thalamus.learnL6Pattern, List.map_cons, List.map_nil, e1]
  · show [t.trnCellIndex (t.trnWidth + x, y)] = [(y + 1) * t.trnWidth + x]
    rw [e1]
    rfl
  · simp only [Thalamus.learnTRNPatternOnRelayCells, List.map_cons, List.map_nil, e2]

/-- C7 amended witness: the aliasing equalities at the out-of-bounds
coordinates (32, 0) (TRN) and (32, 0) (relay) of the default thalamus. -/
theorem thalamus_C7_amended_witness :
    (0 < defaultThalamus.trnWidth ∧ 0 < defaultThalamus.relayWidth)
    ∧ (defaultThalamus.learnL6Pattern [0] [(defaultThalamus.trnWidth + 0, 0)]
        = defaultThalamus.learnL6Pattern [0] [(0, 0 + 1)]
      ∧ (defaultThalamus.learnL6Pattern [0] [(defaultThalamus.trnWidth + 0, 0)]).2
          = [(0 + 1) * defaultThalamus.trnWidth + 0]
      ∧ defaultThalamus.learnTRNPatternOnRelayCells [0] (2, 3)
            [(defaultThalamus.relayWidth + 0, 0)]
          = defaultThalamus.learnTRNPatternOnRelayCells [0] (2, 3) [(0, 0 + 1)]) :=
  ⟨⟨by decide, by decide⟩,
    thalamus_C7_amended defaultThalamus [0] [0] (2, 3) 0 0 0 0 (by decide) (by decide)⟩

/-- A cell is listed by `mapSegmentsToCells` over the thresholded activity
of a store if and only if it owns a segment whose overlap with the active
input set reaches the threshold. -/
theorem mem_mapSegmentsToCells_flatnonzero (s : SparseMatrixConnections)
    (active : List Nat) (θ : Nat) (cp : ℚ) (k : Nat) :
    k ∈ s.mapSegmentsToCells (flatnonzeroGe (s.computeActivity active cp) θ)
      ↔ ∃ seg ∈ s.segments, seg.cell = k
          ∧ θ ≤ SparseMatrixConnections.overlapScore seg.synapses active cp := by
  constructor
  · intro hk
    obtain ⟨i, hi, hcell⟩ := List.mem_map.mp hk
    obtain ⟨hir, hdec⟩ := List.mem_filter.mp hi
    rw [List.mem_range] at hir
    have hlen : i < s.segments.length := by
      simpa [SparseMatrixConnections.computeActivity] using hir
    rw [List.getD_eq_getElem _ _ hlen] at hcell
    have hθ := of_decide_eq_true hdec
    rw [List.getD_eq_getElem _ _ hir] at hθ
    simp only [SparseMatrixConnections.computeActivity, List.getElem_map] at hθ
    exact ⟨s.segments[i], List.mem_iff_getElem.mpr ⟨i, hlen, rfl⟩, hcell, hθ⟩
  · rintro ⟨seg, hmem, hcell, hθ⟩
    obtain ⟨i, hlen, hget⟩ := List.mem_iff_getElem.mp hmem
    have hirange : i < (s.computeActivity active cp).length := by
      simpa [SparseMatrixConnections.computeActivity] using hlen
    refine List.mem_map.mpr ⟨i, List.mem_filter.mpr ⟨List.mem_range.mpr hirange, ?_⟩, ?_⟩
    · apply decide_eq_true
      rw [List.getD_eq_getElem _ _ hirange]
      simp only [SparseMatrixConnections.computeActivity, List.getElem_map]
      rw [hget]
      exact hθ
    · rw [List.getD_eq_getElem _ _ hlen, hget, hcell]

/-- Reading the flat entry `k` after the numpy fancy assignment
`mask.reshape(-1)[indices] = 1` on a well-shaped `W × H` grid gives 1 if
`k` is listed and the old entry otherwise. -/
theorem flatEntry_setFlatOnes (H : Nat) (mask : List (List ℚ)) (indices : List Nat)
    (W k : Nat) (hW : mask.length = W)
    (hrows : ∀ row ∈ mask, row.length = H) (hk : k < W * H) :
    flatEntry H (setFlatOnes H mask indices) k
      = if k ∈ indices then 1 else flatEntry H mask k := by
  have hH : 0 < H := by
    rcases Nat.eq_zero_or_pos H with h0 | h
    · subst h0; omega
    · exact h
  have hdiv : k / H < mask.length := by
    rw [hW]
    exact (Nat.div_lt_iff_lt_mul hH).mpr hk
  have hrowlen : (mask[k / H]).length = H :=
    hrows _ (List.mem_iff_getElem.mpr ⟨_, hdiv, rfl⟩)
  have hmod : k % H < H := Nat.mod_lt _ hH
  have houter : k / H < (setFlatOnes H mask indices).length := by
    simp only [setFlatOnes, List.length_zipWith, List.length_range, Nat.min_self]
    exact hdiv
  unfold flatEntry entry2
  rw [List.getD_eq_getElem _ _ houter]
  simp only [setFlatOnes, List.getElem_zipWith, List.getElem_range]
  have hinner : k % H
      < (List.zipWith (fun j v => if k / H * H + j ∈ indices then (1 : ℚ) else v)
          (List.range (mask[k / H]).length) (mask[k / H])).length := by
    simp only [List.length_zipWith, List.length_range, Nat.min_self, hrowlen]
    exact hmod
  rw [List.getD_eq_getElem _ _ hinner, List.getElem_zipWith, List.getElem_range]
  have hkey : k / H * H + k % H = k := by
    calc k / H * H + k % H = H * (k / H) + k % H := by rw [Nat.mul_comm]
    _ = k := Nat.div_add_mod k H
  rw [hkey]
  split
  · rfl
  · rw [List.getD_eq_getElem _ _ hdiv, List.getD_eq_getElem _ _ (by rw [hrowlen]; exact hmod)]

/-- C3 counterexample: with `tinyTrained` (one trained relay dendrite,
thresholds 1), `deInactivateCells [0]` marks relay cell 0 burst-ready;
calling `deInactivateCells []` again without an intervening `reset()`
leaves the mask entry of cell 0 at 1 even though cell 0 then owns no
`TRN→Relay` segment whose overlap with the (now empty) active TRN cell
set reaches the relay threshold — the claim's "0 at every other relay
cell" fails because the source never clears old mask bits. -/
theorem thalamus_C3_counterexample :
    flatEntry tinyAfterFirst.relayHeight tinyAfterSecond.burstReadyCells 0 = 1
    ∧ ¬ (∃ seg ∈ tinyAfterFirst.relayTRNSegments.segments, seg.cell = 0
        ∧ tinyAfterFirst.relayTRNSegmentThreshold
            ≤ SparseMatrixConnections.overlapScore seg.synapses
                tinyAfterSecond.activeTRNCellIndices ((1 : ℚ)/2)) := by
  constructor
  · with_unfolding_all decide
  · with_unfolding_all decide

/-- C3 (amended): after `deInactivateCells(l6Input)` the burst-ready mask
is 1 at a relay cell exactly when that cell owns a `TRN→Relay` segment
whose overlap with the active TRN cell set (computed from `l6Input` via
the `L6→TRN` store at `trnActivationThreshold`, connected permanence 0.5)
is at least `relayTRNSegmentThreshold`, **or** the mask was already 1
before the call: the call only sets bits; after a `reset()` the mask is
all zero, so a single call then marks exactly the qualifying cells. -/
theorem thalamus_C3_amended (t : Thalamus) (l6Input : List Nat) (k : Nat)
    (hW : t.burstReadyCells.length = t.relayWidth)
    (hrows : ∀ row ∈ t.burstReadyCells, row.length = t.relayHeight)
    (hk : k < t.relayWidth * t.relayHeight) :
    flatEntry t.relayHeight (t.deInactivateCells l6Input).burstReadyCells k = 1
      ↔ ((∃ seg ∈ t.relayTRNSegments.segments, seg.cell = k
            ∧ t.relayTRNSegmentThreshold
                ≤ SparseMatrixConnections.overlapScore seg.synapses
                    (t.deInactivateCells l6Input).activeTRNCellIndices ((1 : ℚ)/2))
        ∨ flatEntry t.relayHeight t.burstReadyCells k = 1) := by
  have hmask : (t.deInactivateCells l6Input).burstReadyCells
      = setFlatOnes t.relayHeight t.burstReadyCells
          ((t.deInactivateCells l6Input).burstReadyCellIndices) := rfl
  have hidx : (t.deInactivateCells l6Input).burstReadyCellIndices
      = t.relayTRNSegments.mapSegmentsToCells
          (flatnonzeroGe
            (t.relayTRNSegments.computeActivity
              ((t.deInactivateCells l6Input).activeTRNCellIndices) ((1 : ℚ)/2))
            t.relayTRNSegmentThreshold) := rfl
  rw [hmask, flatEntry_setFlatOnes t.relayHeight t.burstReadyCells _ t.relayWidth k
    hW hrows hk]
  by_cases hin : k ∈ (t.deInactivateCells l6Input).burstReadyCellIndices
  · rw [if_pos hin]
    have hq := (mem_mapSegmentsToCells_flatnonzero _ _ _ _ k).mp (hidx ▸ hin)
    exact ⟨fun _ => Or.inl hq, fun _ => rfl⟩
  · rw [if_neg hin]
    constructor
    · exact fun h => Or.inr h
    · rintro (hq | h)
      · exact absurd (hidx ▸ (mem_mapSegmentsToCells_flatnonzero _ _ _ _ k).mpr hq) hin
      · exact h

/-- C3 amended witness: the characterization applied to `tinyTrained` at
relay cell 0 with input `[0]`. -/
theorem thalamus_C3_witness :
    (tinyTrained.burstReadyCells.length = tinyTrained.relayWidth
      ∧ (∀ row ∈ tinyTrained.burstReadyCells, row.length = tinyTrained.relayHeight)
      ∧ 0 < tinyTrained.relayWidth * tinyTrained.relayHeight)
    ∧ (flatEntry tinyTrained.relayHeight
          (tinyTrained.deInactivateCells [0]).burstReadyCells 0 = 1
        ↔ ((∃ seg ∈ tinyTrained.relayTRNSegments.segments, seg.cell = 0
              ∧ tinyTrained.relayTRNSegmentThreshold
                  ≤ SparseMatrixConnections.overlapScore seg.synapses
                      (tinyTrained.deInactivateCells [0]).activeTRNCellIndices ((1 : ℚ)/2))
            ∨ flatEntry tinyTrained.relayHeight tinyTrained.burstReadyCells 0 = 1)) :=
  ⟨⟨by with_unfolding_all decide, by with_unfolding_all decide,
      by with_unfolding_all decide⟩,
    thalamus_C3_amended tinyTrained [0] 0 (by with_unfolding_all decide)
      (by with_unfolding_all decide) (by with_unfolding_all decide)⟩

/-- C4: for every relay cell of a grid returned by
`computeFeedForwardActivity`, a cell with feed-forward input 0 outputs 0
regardless of its burst-ready state (Silent), and a cell with feed-forward
input 1 that is not burst-ready outputs exactly `tonicLevel` (Tonic) —
the returned grid is `ff * tonicLevel + burstReadyCells * ff`. -/
theorem thalamus_C4 (t : Thalamus) (ff : List (List ℚ)) (tonicLevel : ℚ)
    (t' : Thalamus) (out : List (List ℚ)) (i j : Nat)
    (hres : t.computeFeedForwardActivity ff tonicLevel = some (t', out))
    (hi : i < ff.length) (hib : i < t.burstReadyCells.length)
    (hj : j < (ff.getD i []).length) (hjb : j < (t.burstReadyCells.getD i []).length) :
    (entry2 ff i j = 0 → entry2 out i j = 0)
    ∧ (entry2 ff i j = 1 → entry2 t.burstReadyCells i j = 0
        → entry2 out i j = tonicLevel) := by
  have hout : out = List.zipWith
      (fun row brow => List.zipWith (fun a b => a * tonicLevel + b * a) row brow)
      ff t.burstReadyCells := by
    simp only [Thalamus.computeFeedForwardActivity] at hres
    split at hres
    · exact Option.noConfusion hres
    · rw [Option.some.injEq, Prod.mk.injEq] at hres
      exact hres.2.symm
  subst hout
  rw [List.getD_eq_getElem _ _ hi] at hj
  rw [List.getD_eq_getElem _ _ hib] at hjb
  have hiz : i < (List.zipWith
      (fun row brow => List.zipWith (fun a b => a * tonicLevel + b * a) row brow)
      ff t.burstReadyCells).length := by
    rw [List.length_zipWith]
    omega
  have hjz : j < (List.zipWith (fun a b => a * tonicLevel + b * a)
      (ff[i]) (t.burstReadyCells[i])).length := by
    rw [List.length_zipWith]
    omega
  have hentry : entry2 (List.zipWith
      (fun row brow => List.zipWith (fun a b => a * tonicLevel + b * a) row brow)
      ff t.burstReadyCells) i j
      = (ff[i])[j] * tonicLevel
        + ((t.burstReadyCells[i])[j]) * ((ff[i])[j]) := by
    unfold entry2
    rw [List.getD_eq_getElem _ _ hiz, List.getElem_zipWith,
      List.getD_eq_getElem _ _ hjz, List.getElem_zipWith]
  have hffe : entry2 ff i j = (ff[i])[j] := by
    unfold entry2
    rw [List.getD_eq_getElem _ _ hi, List.getD_eq_getElem _ _ hj]
  have hbe : entry2 t.burstReadyCells i j = (t.burstReadyCells[i])[j] := by
    unfold entry2
    rw [List.getD_eq_getElem _ _ hib, List.getD_eq_getElem _ _ hjb]
  constructor
  · intro h0
    rw [hffe] at h0
    rw [hentry, h0]
    ring
  · intro h1 hb
    rw [hffe] at h1
    rw [hbe] at hb
    rw [hentry, h1, hb]
    ring

/-- C4 witness: on `smallThalamus` with input `[[1, 1], [0, 0]]` and
`tonicLevel = 1/2` the call returns the grid `[[1/2, 1/2], [0, 0]]`; the
theorem is applied at cell (0, 0) (input 1, not burst-ready, output
exactly 1/2) — its first conjunct is vacuous there and its second gives
the tonic value. -/
theorem thalamus_C4_witness :
    (smallThalamus.computeFeedForwardActivity smallFF ((1 : ℚ)/2)
        = some (smallThalamus, [[(1 : ℚ)/2, (1 : ℚ)/2], [0, 0]])
      ∧ 0 < smallFF.length ∧ 0 < smallThalamus.burstReadyCells.length
      ∧ 0 < (smallFF.getD 0 []).length
      ∧ 0 < (smallThalamus.burstReadyCells.getD 0 []).length)
    ∧ ((entry2 smallFF 0 0 = 0 → entry2 [[(1 : ℚ)/2, (1 : ℚ)/2], [0, 0]] 0 0 = 0)
      ∧ (entry2 smallFF 0 0 = 1 → entry2 smallThalamus.burstReadyCells 0 0 = 0
          → entry2 [[(1 : ℚ)/2, (1 : ℚ)/2], [0, 0]] 0 0 = (1 : ℚ)/2)) :=
  ⟨⟨by with_unfolding_all decide, by with_unfolding_all decide,
      by with_unfolding_all decide, by with_unfolding_all decide,
      by with_unfolding_all decide⟩,
    thalamus_C4 smallThalamus smallFF ((1 : ℚ)/2) smallThalamus
      [[(1 : ℚ)/2, (1 : ℚ)/2], [0, 0]] 0 0 (by with_unfolding_all decide)
      (by with_unfolding_all decide) (by with_unfolding_all decide)
      (by with_unfolding_all decide) (by with_unfolding_all decide)⟩

/-- C10: the grid returned by `computeFeedForwardActivity` depends only on
the feed-forward input, the tonic level and the burst-ready mask: two
model states with the same burst-ready mask — however much their
`FeedForward→Relay` stores (and hence the per-dendrite feed-forward
overlap scores computed inside the call) differ — return identical grids,
and the call succeeds or fails identically. -/
theorem thalamus_C10 (t₁ t₂ : Thalamus) (ff : List (List ℚ)) (tonicLevel : ℚ)
    (h : t₁.burstReadyCells = t₂.burstReadyCells) :
    (t₁.computeFeedForwardActivity ff tonicLevel).map Prod.snd
      = (t₂.computeFeedForwardActivity ff tonicLevel).map Prod.snd := by
  by_cases hc : (nonzeroPositions ff).length < 2
  · simp [Thalamus.computeFeedForwardActivity, hc]
  · simp [Thalamus.computeFeedForwardActivity, hc, h]

/-- C10 witness: `smallThalamus` and `smallVariantThalamus` differ in their
`FeedForward→Relay` store (empty versus one segment, giving different
feed-forward overlap scores) but share the burst-ready mask, and return
the same grid on `smallFF`. -/
theorem thalamus_C10_witness :
    smallThalamus.burstReadyCells = smallVariantThalamus.burstReadyCells
    ∧ (smallThalamus.computeFeedForwardActivity smallFF ((1 : ℚ)/2)).map Prod.snd
        = (smallVariantThalamus.computeFeedForwardActivity smallFF ((1 : ℚ)/2)).map
            Prod.snd :=
  ⟨by with_unfolding_all decide,
    thalamus_C10 smallThalamus smallVariantThalamus smallFF ((1 : ℚ)/2)
      (by with_unfolding_all decide)⟩

/-- C5 (behaviour of the spec-modelled `setThresholds`, which is missing
from `thalamus.py` even though the repository's own test calls it):
it mutates exactly the two scalar thresholds, leaves every store and all
already-computed transient state (active segment sets, burst-ready mask)
unchanged, and the next `deInactivateCells` call selects segments with
the new thresholds. -/
theorem thalamus_C5 (t : Thalamus) (a b : Nat) (l6Input : List Nat) :
    (t.setThresholds a b).trnActivationThreshold = a
    ∧ (t.setThresholds a b).relayTRNSegmentThreshold = b
    ∧ (t.setThresholds a b).trnConnections = t.trnConnections
    ∧ (t.setThresholds a b).relayTRNSegments = t.relayTRNSegments
    ∧ (t.setThresholds a b).relayFFSegments = t.relayFFSegments
    ∧ (t.setThresholds a b).activeTRNSegments = t.activeTRNSegments
    ∧ (t.setThresholds a b).activeTRNCellIndices = t.activeTRNCellIndices
    ∧ (t.setThresholds a b).activeRelaySegments = t.activeRelaySegments
    ∧ (t.setThresholds a b).burstReadyCellIndices = t.burstReadyCellIndices
    ∧ (t.setThresholds a b).burstReadyCells = t.burstReadyCells
    ∧ ((t.setThresholds a b).deInactivateCells l6Input).activeTRNSegments
        = flatnonzeroGe (t.trnConnections.computeActivity l6Input ((1 : ℚ)/2)) a
    ∧ ((t.setThresholds a b).deInactivateCells l6Input).activeRelaySegments
        = flatnonzeroGe
            (t.relayTRNSegments.computeActivity
              (t.trnConnections.mapSegmentsToCells
                (flatnonzeroGe (t.trnConnections.computeActivity l6Input ((1 : ℚ)/2)) a))
              ((1 : ℚ)/2)) b :=
  ⟨rfl, rfl, rfl, rfl, rfl, rfl, rfl, rfl, rfl, rfl, rfl, rfl⟩

/-- A filter with a pointwise weaker predicate keeps at least as many
elements. -/
theorem length_filter_le_of_imp {α : Type} (l : List α) (p q : α → Bool)
    (h : ∀ a ∈ l, p a = true → q a = true) :
    (l.filter p).length ≤ (l.filter q).length := by
  induction l with
  | nil => simp
  | cons a l ih =>
    have ih' := ih (fun x hx hp => h x (List.mem_cons_of_mem a hx) hp)
    simp only [List.filter_cons]
    by_cases hpa : p a = true
    · rw [if_pos hpa, if_pos (h a (List.mem_cons_self a l) hpa)]
      simpa using ih'
    · rw [if_neg hpa]
      by_cases hqa : q a = true
      · rw [if_pos hqa]
        exact Nat.le_succ_of_le ih'
      · rw [if_neg hqa]
        exact ih'

/-- Membership in a filter is preserved by a pointwise weaker predicate. -/
theorem mem_filter_of_imp {α : Type} {l : List α} {p q : α → Bool}
    (h : ∀ a ∈ l, p a = true → q a = true) {x : α} (hx : x ∈ l.filter p) :
    x ∈ l.filter q := by
  rw [List.mem_filter] at hx ⊢
  exact ⟨hx.1, h x hx.1 hx.2⟩

/-- A segment's overlap score is monotone in the active-input set. -/
theorem overlapScore_mono (syns : List Synapse) (act₁ act₂ : List Nat) (cp : ℚ)
    (h : ∀ x ∈ act₁, x ∈ act₂) :
    SparseMatrixConnections.overlapScore syns act₁ cp
      ≤ SparseMatrixConnections.overlapScore syns act₂ cp := by
  apply length_filter_le_of_imp
  intro syn _ hp
  simp only [decide_eq_true_eq] at hp ⊢
  exact ⟨h _ hp.1, hp.2⟩

/-- Lowering the threshold and enlarging the active-input set can only
increase the number of segments that `flatnonzero (overlaps >= threshold)`
selects. -/
theorem flatnonzero_computeActivity_length_mono (s : SparseMatrixConnections)
    (act₁ act₂ : List Nat) (cp : ℚ) (θ₁ θ₂ : Nat)
    (hθ : θ₂ ≤ θ₁) (hact : ∀ x ∈ act₁, x ∈ act₂) :
    (flatnonzeroGe (s.computeActivity act₁ cp) θ₁).length
      ≤ (flatnonzeroGe (s.computeActivity act₂ cp) θ₂).length := by
  unfold flatnonzeroGe
  have hlen : (s.computeActivity act₂ cp).length = (s.computeActivity act₁ cp).length := by
    simp [SparseMatrixConnections.computeActivity]
  rw [hlen]
  apply length_filter_le_of_imp
  intro i hir hp
  rw [List.mem_range] at hir
  have hseg : i < s.segments.length := by
    simpa [SparseMatrixConnections.computeActivity] using hir
  have h2len : i < (s.computeActivity act₂ cp).length := by rw [hlen]; exact hir
  have h1 : (s.computeActivity act₁ cp).getD i 0
      = SparseMatrixConnections.overlapScore (s.segments[i]).synapses act₁ cp := by
    rw [List.getD_eq_getElem _ _ hir]
    simp [SparseMatrixConnections.computeActivity]
  have h2 : (s.computeActivity act₂ cp).getD i 0
      = SparseMatrixConnections.overlapScore (s.segments[i]).synapses act₂ cp := by
    rw [List.getD_eq_getElem _ _ h2len]
    simp [SparseMatrixConnections.computeActivity]
  simp only [decide_eq_true_eq] at hp ⊢
  have hmono := overlapScore_mono (s.segments[i]).synapses act₁ act₂ cp hact
  rw [h1] at hp
  rw [h2]
  omega

/-- C6: for a fixed trained state and fixed `l6Input`, lowering
`trnActivationThreshold` and `relayTRNSegmentThreshold` and re-running
`deInactivateCells` after a `reset()` never decreases the number of
entries of `activeTRNCellIndices`, nor of `burstReadyCellIndices`. -/
theorem thalamus_C6 (t : Thalamus) (trnLow relayLow : Nat) (l6Input : List Nat)
    (h₁ : trnLow ≤ t.trnActivationThreshold)
    (h₂ : relayLow ≤ t.relayTRNSegmentThreshold) :
    (t.reset.deInactivateCells l6Input).activeTRNCellIndices.length
      ≤ (({ t with trnActivationThreshold := trnLow, relayTRNSegmentThreshold := relayLow }).reset.deInactivateCells
          l6Input).activeTRNCellIndices.length
    ∧ (t.reset.deInactivateCells l6Input).burstReadyCellIndices.length
      ≤ (({ t with trnActivationThreshold := trnLow, relayTRNSegmentThreshold := relayLow }).reset.deInactivateCells
          l6Input).burstReadyCellIndices.length := by
  constructor
  · show (t.trnConnections.mapSegmentsToCells
        (flatnonzeroGe (t.trnConnections.computeActivity l6Input ((1 : ℚ)/2))
          t.trnActivationThreshold)).length
      ≤ (t.trnConnections.mapSegmentsToCells
        (flatnonzeroGe (t.trnConnections.computeActivity l6Input ((1 : ℚ)/2))
          trnLow)).length
    simp only [SparseMatrixConnections.mapSegmentsToCells, List.length_map]
    exact flatnonzero_computeActivity_length_mono t.trnConnections l6Input l6Input
      ((1 : ℚ)/2) t.trnActivationThreshold trnLow h₁ (fun x hx => hx)
  · show (t.relayTRNSegments.mapSegmentsToCells
        (flatnonzeroGe
          (t.relayTRNSegments.computeActivity
            (t.trnConnections.mapSegmentsToCells
              (flatnonzeroGe (t.trnConnections.computeActivity l6Input ((1 : ℚ)/2))
                t.trnActivationThreshold)) ((1 : ℚ)/2))
          t.relayTRNSegmentThreshold)).length
      ≤ (t.relayTRNSegments.mapSegmentsToCells
        (flatnonzeroGe
          (t.relayTRNSegments.computeActivity
            (t.trnConnections.mapSegmentsToCells
              (flatnonzeroGe (t.trnConnections.computeActivity l6Input ((1 : ℚ)/2))
                trnLow)) ((1 : ℚ)/2))
          relayLow)).length
    have hsub : ∀ x ∈ t.trnConnections.mapSegmentsToCells
        (flatnonzeroGe (t.trnConnections.computeActivity l6Input ((1 : ℚ)/2))
          t.trnActivationThreshold),
        x ∈ t.trnConnections.mapSegmentsToCells
          (flatnonzeroGe (t.trnConnections.computeActivity l6Input ((1 : ℚ)/2)) trnLow) := by
      intro x hx
      obtain ⟨i, hi, rfl⟩ := List.mem_map.mp hx
      refine List.mem_map.mpr ⟨i, ?_, rfl⟩
      refine mem_filter_of_imp (fun a _ hp => ?_) hi
      simp only [decide_eq_true_eq] at hp ⊢
      omega
    simp only [SparseMatrixConnections.mapSegmentsToCells, List.length_map]
    exact flatnonzero_computeActivity_length_mono t.relayTRNSegments _ _
      ((1 : ℚ)/2) t.relayTRNSegmentThreshold relayLow h₂ hsub

/-- C6 witness: `tinyTrained` (thresholds 1, 1) with both thresholds
lowered to 0, on the trained input `[0]`. -/
theorem thalamus_C6_witness :
    (0 ≤ tinyTrained.trnActivationThreshold
      ∧ 0 ≤ tinyTrained.relayTRNSegmentThreshold)
    ∧ ((tinyTrained.reset.deInactivateCells [0]).activeTRNCellIndices.length
        ≤ (({ tinyTrained with trnActivationThreshold := 0, relayTRNSegmentThreshold := 0 }).reset.deInactivateCells
            [0]).activeTRNCellIndices.length
      ∧ (tinyTrained.reset.deInactivateCells [0]).burstReadyCellIndices.length
        ≤ (({ tinyTrained with trnActivationThreshold := 0, relayTRNSegmentThreshold := 0 }).reset.deInactivateCells
            [0]).burstReadyCellIndices.length) :=
  ⟨⟨Nat.zero_le _, Nat.zero_le _⟩,
    thalamus_C6 tinyTrained 0 0 [0] (Nat.zero_le _) (Nat.zero_le _)⟩

/-- The partially applied coordinate indexers ignore the RNG field. -/
theorem trnCellIndex_rngState (t : Thalamus) (r : Nat) :
    Thalamus.trnCellIndex { t with rngState := r } = t.trnCellIndex := rfl

/-- The relay coordinate indexer ignores the RNG field. -/
theorem relayCellIndex_rngState (t : Thalamus) (r : Nat) :
    Thalamus.relayCellIndex { t with rngState := r } = t.relayCellIndex := rfl

/-- The feed-forward coordinate indexer ignores the RNG field. -/
theorem ffCellIndex_rngState (t : Thalamus) (r : Nat) :
    Thalamus.ffCellIndex { t with rngState := r } = t.ffCellIndex := rfl

/-- `learnL6Pattern` neither reads nor writes the RNG state. -/
theorem learnL6Pattern_rngState (t : Thalamus) (r : Nat) (pat : List Nat)
    (cells : List (Nat × Nat)) :
    Thalamus.learnL6Pattern { t with rngState := r } pat cells
      = ({ (t.learnL6Pattern pat cells).1 with rngState := r },
         (t.learnL6Pattern pat cells).2) := rfl

/-- `learnTRNPatternOnRelayCells` neither reads nor writes the RNG state. -/
theorem learnTRNPatternOnRelayCells_rngState (t : Thalamus) (r : Nat)
    (sdr : List Nat) (coord : Nat × Nat) (cells : List (Nat × Nat)) :
    Thalamus.learnTRNPatternOnRelayCells { t with rngState := r } sdr coord cells
      = (t.learnTRNPatternOnRelayCells sdr coord cells).map
          (fun p => ({ p.1 with rngState := r }, p.2)) := by
  simp only [Thalamus.learnTRNPatternOnRelayCells, relayCellIndex_rngState,
    ffCellIndex_rngState]
  by_cases hc : (t.relayFFSegments.createSegments (cells.map t.relayCellIndex)).2
      = (t.relayTRNSegments.createSegments (cells.map t.relayCellIndex)).2
  · rw [if_pos hc, if_pos hc]
    rfl
  · rw [if_neg hc, if_neg hc]
    rfl

/-- `deInactivateCells` neither reads nor writes the RNG state. -/
theorem deInactivateCells_rngState (t : Thalamus) (r : Nat) (l6Input : List Nat) :
    Thalamus.deInactivateCells { t with rngState := r } l6Input
      = { t.deInactivateCells l6Input with rngState := r } := rfl

/-- `computeFeedForwardActivity` neither reads nor writes the RNG state. -/
theorem computeFeedForwardActivity_rngState (t : Thalamus) (r : Nat)
    (ff : List (List ℚ)) (tonicLevel : ℚ) :
    Thalamus.computeFeedForwardActivity { t with rngState := r } ff tonicLevel
      = (t.computeFeedForwardActivity ff tonicLevel).map
          (fun p => ({ p.1 with rngState := r }, p.2)) := by
  simp only [Thalamus.computeFeedForwardActivity]
  by_cases hc : (nonzeroPositions ff).length < 2
  · rw [if_pos hc, if_pos hc]
    rfl
  · rw [if_neg hc, if_neg hc]
    rfl

/-- `reset` neither reads nor writes the RNG state. -/
theorem reset_rngState (t : Thalamus) (r : Nat) :
    Thalamus.reset { t with rngState := r } = { t.reset with rngState := r } := rfl

/-- One API call commutes with changing the RNG state: the observable
output is unchanged and the new state carries the changed RNG state. -/
theorem applyCall_rngState (t : Thalamus) (r : Nat) (c : ThalamusCall) :
    applyCall { t with rngState := r } c
      = (applyCall t c).map (fun q => ({ q.1 with rngState := r }, q.2)) := by
  cases c with
  | learnL6 pat cells => rfl
  | learnTRN sdr coord cells =>
    simp only [applyCall]
    rw [learnTRNPatternOnRelayCells_rngState]
    cases t.learnTRNPatternOnRelayCells sdr coord cells with
    | none => rfl
    | some p => rfl
  | deInactivate l6 => rfl
  | computeFF ff tonic =>
    simp only [applyCall]
    rw [computeFeedForwardActivity_rngState]
    cases t.computeFeedForwardActivity ff tonic with
    | none => rfl
    | some p => rfl
  | doReset => rfl

/-- A whole call sequence commutes with changing the RNG state. -/
theorem runCalls_rngState (calls : List ThalamusCall) (t : Thalamus) (r : Nat) :
    runCalls { t with rngState := r } calls
      = (runCalls t calls).map (fun q => ({ q.1 with rngState := r }, q.2)) := by
  induction calls generalizing t with
  | nil => rfl
  | cons c cs ih =>
    simp only [runCalls]
    rw [applyCall_rngState]
    cases hc : applyCall t c with
    | none => rfl
    | some p =>
      show (runCalls { p.1 with rngState := r } cs).map (fun q => (q.1, p.2 :: q.2))
          = ((runCalls p.1 cs).map (fun q => (q.1, p.2 :: q.2))).map
              (fun q => ({ q.1 with rngState := r }, q.2))
      rw [ih p.1]
      cases runCalls p.1 cs with
      | none => rfl
      | some q => rfl

/-- C9: for fixed construction parameters and a fixed sequence of learn and
inference calls with the same arguments, two runs of the model produce
bit-identical observable results — the transient sets and burst-ready
mask from every `deInactivateCells` and the grid from every
`computeFeedForwardActivity`.  The embedding is a pure function of the
construction parameters and the call list, and the one piece of state
that could vary between runs, the `Random(seed)` generator, is created
but never consulted: the collected outputs are identical for any two RNG
states. -/
theorem thalamus_C9 (trnCellShape relayCellShape inputShape : Nat × Nat)
    (l6CellCount trnThreshold relayThreshold sd r₁ r₂ : Nat)
    (calls : List ThalamusCall) :
    (runCalls { Thalamus.init trnCellShape relayCellShape inputShape l6CellCount
        trnThreshold relayThreshold sd with rngState := r₁ } calls).map Prod.snd
      = (runCalls { Thalamus.init trnCellShape relayCellShape inputShape l6CellCount
          trnThreshold relayThreshold sd with rngState := r₂ } calls).map Prod.snd := by
  rw [runCalls_rngState calls (Thalamus.init trnCellShape relayCellShape inputShape
      l6CellCount trnThreshold relayThreshold sd) r₁,
    runCalls_rngState calls (Thalamus.init trnCellShape relayCellShape inputShape
      l6CellCount trnThreshold relayThreshold sd) r₂,
    Option.map_map, Option.map_map]
  rfl
